import Mathlib

/-!
Shallow embedding of the shadow-analysis serving pipeline (src/analysis.py).

The repository serves one HTTP endpoint, GET /calculate-shadow, whose handler
(function calculate_shadow, lines 104-126) captures the current time, resolves
sun geometry and computes a shadow matrix (calculate_shadow_matrix, lines
27-43), best-effort archives a compressed copy of the matrix (lines 109-113,
compress_data lines 99-101, save_shadow_matrix lines 46-50), renders a heatmap
and a 3-D surface plot (generate_heatmap lines 53-65, generate_surface_plot
lines 68-96), and returns a JSON body with the formatted timestamp and the two
base64 image payloads.

External collaborators (the solar-position calculator, the shadow-casting
algorithm, pickle, gzip, the MongoDB insert, and the matplotlib figure
encoders) are modelled as an explicit record of functions (Externals); the
repository code is translated definition by definition on top of it.  Python
exceptions are modelled with Except: an expression that can raise returns
Except PyErr.  Numpy floating-point values are modelled by the inductive FV
(nan, positive and negative infinity, or a finite value drawn from an ordered
field); the arithmetic on FV follows IEEE semantics as numpy implements them,
in particular division by a zero denominator returns nan or an infinity and
does not raise.  The embedding is parametric in the ordered field of finite
values (instantiated with the rationals in concrete computations) and in the
value used for the float constant np.pi.
-/

namespace ShadowAnalysis

/-- Python exception values, by the classes that appear at this boundary. -/
inductive PyErr where
  | keyError (key : String)
  | indexError (msg : String)
  | valueError (msg : String)
  | exception (msg : String)
deriving DecidableEq

/-- A numpy floating-point sample: not-a-number, an infinity, or a finite
value from the ordered field of finite floats. -/
inductive FV (α : Type) where
  | nan : FV α
  | inf : FV α
  | neginf : FV α
  | num : α → FV α
deriving DecidableEq

/-- A 2-D numpy array of floating-point samples, row major. -/
abbrev Grid (α : Type) := List (List (FV α))

/-- The data frame returned by the solar-position calculator: named columns
of floating-point samples. -/
abbrev SolarFrame (α : Type) := List (String × List (FV α))

/-- A datetime.now value, to second precision (the handler formats it). -/
structure DateTime where
  year : ℕ
  month : ℕ
  day : ℕ
  hour : ℕ
  minute : ℕ
  second : ℕ
deriving DecidableEq

variable {α : Type} [LinearOrderedField α] {β : Type}

/-- IEEE multiplication on FV samples (numpy semantics; signed zeros are not
distinguished). -/
def fvMul : FV α → FV α → FV α
  | .nan, _ => .nan
  | _, .nan => .nan
  | .num a, .num b => .num (a * b)
  | .num a, .inf => if a = 0 then .nan else if 0 < a then .inf else .neginf
  | .inf, .num a => if a = 0 then .nan else if 0 < a then .inf else .neginf
  | .num a, .neginf => if a = 0 then .nan else if 0 < a then .neginf else .inf
  | .neginf, .num a => if a = 0 then .nan else if 0 < a then .neginf else .inf
  | .inf, .inf => .inf
  | .inf, .neginf => .neginf
  | .neginf, .inf => .neginf
  | .neginf, .neginf => .inf

/-- IEEE subtraction on FV samples. -/
def fvSub : FV α → FV α → FV α
  | .nan, _ => .nan
  | _, .nan => .nan
  | .num a, .num b => .num (a - b)
  | .num _, .inf => .neginf
  | .num _, .neginf => .inf
  | .inf, .num _ => .inf
  | .neginf, .num _ => .neginf
  | .inf, .inf => .nan
  | .inf, .neginf => .inf
  | .neginf, .inf => .neginf
  | .neginf, .neginf => .nan

/-- IEEE division on FV samples.  A zero denominator yields nan (for a zero
numerator) or an infinity, never an exception: numpy emits a RuntimeWarning
and keeps going. -/
def fvDiv : FV α → FV α → FV α
  | .nan, _ => .nan
  | _, .nan => .nan
  | .num a, .num b =>
      if b = 0 then (if a = 0 then .nan else if 0 < a then .inf else .neginf)
      else .num (a / b)
  | .inf, .num b => if 0 ≤ b then .inf else .neginf
  | .neginf, .num b => if 0 ≤ b then .neginf else .inf
  | .num _, .inf => .num 0
  | .num _, .neginf => .num 0
  | .inf, .inf => .nan
  | .inf, .neginf => .nan
  | .neginf, .inf => .nan
  | .neginf, .neginf => .nan

/-- Binary minimum as np.min reduces: nan propagates. -/
def fvMin2 : FV α → FV α → FV α
  | .nan, _ => .nan
  | _, .nan => .nan
  | .neginf, _ => .neginf
  | _, .neginf => .neginf
  | .inf, b => b
  | a, .inf => a
  | .num a, .num b => .num (min a b)

/-- Binary maximum as np.max reduces: nan propagates. -/
def fvMax2 : FV α → FV α → FV α
  | .nan, _ => .nan
  | _, .nan => .nan
  | .inf, _ => .inf
  | _, .inf => .inf
  | .neginf, b => b
  | a, .neginf => a
  | .num a, .num b => .num (max a b)

/-- Number of rows of a grid (dsm.shape[0]). -/
def gridRows (g : Grid α) : ℕ := g.length

/-- Number of columns of a grid (dsm.shape[1]; numpy arrays are
rectangular, so the first row is representative). -/
def gridCols (g : Grid α) : ℕ :=
  match g with
  | [] => 0
  | r :: _ => r.length

/-- Elementwise map over a grid (numpy broadcasting of a unary op). -/
def gridMap (f : FV α → FV α) (g : Grid α) : Grid α := g.map (List.map f)

/-- All samples of a grid, row major. -/
def elemsOf (g : Grid α) : List (FV α) := g.flatten

/-- The sample at row i, column j, when both indices are in range. -/
def gridGet (g : Grid α) (i j : ℕ) : Option (FV α) :=
  (g.get? i).bind (fun row => row.get? j)

/-- np.zeros((r, c)). -/
def npZeros (r c : ℕ) : Grid α := List.replicate r (List.replicate c (FV.num 0))

/-- np.min over a whole array: raises ValueError on an empty array,
otherwise reduces with the nan-propagating binary minimum. -/
def npMin (g : Grid α) : Except PyErr (FV α) :=
  match elemsOf g with
  | [] => .error (.valueError "zero-size array to reduction operation")
  | x :: xs => .ok (xs.foldl fvMin2 x)

/-- np.max over a whole array, as npMin. -/
def npMax (g : Grid α) : Except PyErr (FV α) :=
  match elemsOf g with
  | [] => .error (.valueError "zero-size array to reduction operation")
  | x :: xs => .ok (xs.foldl fvMax2 x)

/-- Elementwise (x * p) / d over a grid: models the expression
dirwalls * np.pi / 180. at line 42 of analysis.py. -/
def gridMulScalarDiv (g : Grid α) (p d : α) : Grid α :=
  gridMap (fun x => fvDiv (fvMul x (FV.num p)) (FV.num d)) g

/-- np.linspace(0, n - 1, n): the samples 0, 1, ..., n - 1. -/
def linspace0 (n : ℕ) : List α := (List.range n).map (fun i => (i : α))

/-- First meshgrid output: ny copies of the x axis as rows. -/
def meshgridX (x : List α) (ny : ℕ) : List (List α) := List.replicate ny x

/-- Second meshgrid output: each row is a constant y sample repeated nx
times. -/
def meshgridY (y : List α) (nx : ℕ) : List (List α) :=
  y.map (fun v => List.replicate nx v)

/-- Keep the red, green, blue channels of an RGBA colour: the slice
[:, :, :3] at line 76 of analysis.py. -/
def rgbOfRgba (c : α × α × α × α) : α × α × α := (c.1, c.2.1, c.2.2.1)

/-- The base64 alphabet character for a 6-bit group. -/
def b64Char (n : ℕ) : Char :=
  "ABCDEFGHIJKLMNOPQRSTUVWXYZabcdefghijklmnopqrstuvwxyz0123456789+/".toList.getD n 'A'

/-- RFC 4648 base64 of a byte sequence, with padding: models
base64.b64encode(buf.getvalue()).decode() on PNG buffers. -/
def b64encode : List ℕ → String
  | [] => ""
  | [b1] =>
      String.mk [b64Char (b1 * 65536 / 262144 % 64), b64Char (b1 * 65536 / 4096 % 64)] ++ "=="
  | [b1, b2] =>
      String.mk [b64Char ((b1 * 65536 + b2 * 256) / 262144 % 64),
                 b64Char ((b1 * 65536 + b2 * 256) / 4096 % 64),
                 b64Char ((b1 * 65536 + b2 * 256) / 64 % 64)] ++ "="
  | b1 :: b2 :: b3 :: rest =>
      String.mk [b64Char ((b1 * 65536 + b2 * 256 + b3) / 262144 % 64),
                 b64Char ((b1 * 65536 + b2 * 256 + b3) / 4096 % 64),
                 b64Char ((b1 * 65536 + b2 * 256 + b3) / 64 % 64),
                 b64Char ((b1 * 65536 + b2 * 256 + b3) % 64)] ++ b64encode rest

/-- Two-digit zero-padded decimal, as the strftime fields %m %d %H %M %S. -/
def pad2 (n : ℕ) : String := if n < 10 then "0" ++ toString n else toString n

/-- Four-digit zero-padded decimal, as the strftime field %Y. -/
def pad4 (n : ℕ) : String :=
  if n < 10 then "000" ++ toString n
  else if n < 100 then "00" ++ toString n
  else if n < 1000 then "0" ++ toString n
  else toString n

/-- timestamp.strftime with the format %Y-%m-%d %H:%M:%S (line 118). -/
def strftime (t : DateTime) : String :=
  pad4 t.year ++ "-" ++ pad2 t.month ++ "-" ++ pad2 t.day ++ " " ++
    pad2 t.hour ++ ":" ++ pad2 t.minute ++ ":" ++ pad2 t.second

/-- The document inserted into the shadow_matrices collection (line 110):
a dict with keys timestamp and shadow_matrix. -/
structure Document (β : Type) where
  timestamp : DateTime
  shadow_matrix : β
deriving DecidableEq

/-- The Flask response assembled at lines 120-125: the JSON body as an
association list of string fields, plus the Content-Type header. -/
structure HttpResponse where
  body : List (String × String)
  contentType : String
deriving DecidableEq

/-- One handler invocation observed from outside: the HTTP outcome (a
response, or a propagated exception that Flask turns into a server error)
and the list of documents passed to the store insert (each entry is one
attempted archival write, whether or not the store accepted it). -/
structure HandlerResult (α β : Type) where
  response : Except PyErr HttpResponse
  archiveAttempts : List (Document β)

/-- The external collaborators of the pipeline, as the boundary functions
the repository calls: the solar-position calculator, the shadow-casting
algorithm, pickle and gzip over an abstract byte type β, the MongoDB
insert, the matplotlib heatmap and surface figure encoders (figure
creation through savefig, producing PNG bytes), and the viridis colormap
(total: matplotlib maps nan to its bad colour instead of raising). -/
structure Externals (α β : Type) where
  get_solarposition : DateTime → α → α → Except PyErr (SolarFrame α)
  shadowingfunction_wallheight_13 :
    Grid α → FV α → FV α → α → Grid α → Grid α →
      Except PyErr (Grid α × Grid α × Grid α × Grid α × Grid α)
  pickle_dumps : Grid α → Except PyErr β
  pickle_loads : β → Except PyErr (Grid α)
  gzip_compress : β → Except PyErr β
  gzip_decompress : β → Except PyErr β
  insert_one : Document β → Except PyErr Unit
  heatmap_savefig : Grid α → Except PyErr (List ℕ)
  viridis : FV α → α × α × α × α
  surface_savefig : List (List α) → List (List α) → Grid α →
    List (List (α × α × α)) → Except PyErr (List ℕ)

/-- Column access df[key] followed by [0]: a missing column raises
KeyError(key); indexing an empty column raises a lookup error on label 0. -/
def dfGet0 (df : SolarFrame α) (key : String) : Except PyErr (FV α) :=
  match List.lookup key df with
  | none => .error (.keyError key)
  | some [] => .error (.keyError "0")
  | some (v :: _) => .ok v

/-- calculate_shadow_matrix (lines 27-43).  The local variables of the
source are inlined: scale = 1, walls and dirwalls are np.zeros over the
terrain shape, and the last argument is dirwalls * np.pi / 180.  The
five outputs of the external algorithm are unpacked and only the first
is returned. -/
def calculate_shadow_matrix (npPi : α) (ext : Externals α β) (dsm : Grid α)
    (latitude longitude : α) (timestamp : DateTime) : Except PyErr (Grid α) :=
  match ext.get_solarposition timestamp latitude longitude with
  | .error e => .error e
  | .ok df_solar =>
    match dfGet0 df_solar "elevation" with
    | .error e => .error e
    | .ok altitude =>
      match dfGet0 df_solar "azimuth" with
      | .error e => .error e
      | .ok azimuth =>
        match ext.shadowingfunction_wallheight_13 dsm azimuth altitude 1
            (npZeros (gridRows dsm) (gridCols dsm))
            (gridMulScalarDiv (npZeros (gridRows dsm) (gridCols dsm)) npPi 180) with
        | .error e => .error e
        | .ok out => .ok out.1

/-- save_shadow_matrix (lines 46-50): insert the document into the
shadow_matrices collection. -/
def save_shadow_matrix (ext : Externals α β) (data : Document β) : Except PyErr Unit :=
  ext.insert_one data

/-- compress_data (lines 99-101): gzip.compress(pickle.dumps(data)). -/
def compress_data (ext : Externals α β) (data : Grid α) : Except PyErr β :=
  match ext.pickle_dumps data with
  | .error e => .error e
  | .ok b => ext.gzip_compress b

/-- Modelled from the spec: the reader-side inverse of compress_data,
pickle.loads(gzip.decompress(blob)).  No reader exists in the repository;
the round-trip property of section 8 of the spec defines it. -/
def decompress_data (ext : Externals α β) (blob : β) : Except PyErr (Grid α) :=
  match ext.gzip_decompress blob with
  | .error e => .error e
  | .ok b => ext.pickle_loads b

/-- The try block at lines 109-113: build the document (evaluating
compress_data inside the try), call save_shadow_matrix, and swallow any
exception.  The first component records the writes that were attempted
(the documents passed to the insert); the second is the swallowed result
of the insert, which the handler ignores. -/
def tryArchive (ext : Externals α β) (now : DateTime) (shadow_matrix : Grid α) :
    List (Document β) × Except PyErr Unit :=
  match compress_data ext shadow_matrix with
  | .error e => ([], .error e)
  | .ok blob =>
      ([⟨now, blob⟩], save_shadow_matrix ext (⟨now, blob⟩ : Document β))

/-- generate_heatmap (lines 53-65): the seaborn figure and savefig are the
external encoder producing PNG bytes; the handler base64-encodes them. -/
def generate_heatmap (ext : Externals α β) (matrix : Grid α) : Except PyErr String :=
  match ext.heatmap_savefig matrix with
  | .error e => .error e
  | .ok png => .ok (b64encode png)

/-- The normalization line 75 of generate_surface_plot:
(dsm - np.min(dsm)) / (np.max(dsm) - np.min(dsm)), elementwise over the
terrain with IEEE semantics.  np.min and np.max raise only on an empty
array. -/
def dsm_normalized (dsm : Grid α) : Except PyErr (Grid α) :=
  match npMin dsm, npMax dsm with
  | .error e, _ => .error e
  | _, .error e => .error e
  | .ok mn, .ok mx => .ok (gridMap (fun x => fvDiv (fvSub x mn) (fvSub mx mn)) dsm)

/-- generate_surface_plot (lines 68-96): build the meshgrid from the shadow
matrix shape, normalize the terrain, colour it through viridis keeping the
RGB channels, hand everything to the external 3-D plot encoder, and
base64-encode the PNG bytes. -/
def generate_surface_plot (ext : Externals α β) (dsm shadow_matrix : Grid α) :
    Except PyErr String :=
  match dsm_normalized dsm with
  | .error e => .error e
  | .ok dn =>
    match ext.surface_savefig
        (meshgridX (linspace0 (gridCols shadow_matrix)) (gridRows shadow_matrix))
        (meshgridY (linspace0 (gridRows shadow_matrix)) (gridCols shadow_matrix))
        shadow_matrix
        (dn.map (fun row => row.map (fun v => rgbOfRgba (ext.viridis v)))) with
    | .error e => .error e
    | .ok png => .ok (b64encode png)

/-- The handler calculate_shadow (lines 104-126).  now is the timestamp
captured by datetime.now() at request arrival; the terrain and the fixed
location are the process globals.  Exceptions from geometry resolution and
shadow computation propagate before any archival is attempted; the archive
step is inside try/except, so its outcome never influences the rest; a
render exception propagates after the archive attempt. -/
def calculate_shadow (npPi : α) (ext : Externals α β) (dsm : Grid α)
    (latitude longitude : α) (now : DateTime) : HandlerResult α β :=
  match calculate_shadow_matrix npPi ext dsm latitude longitude now with
  | .error e => { response := .error e, archiveAttempts := [] }
  | .ok shadow_matrix =>
    match generate_heatmap ext shadow_matrix with
    | .error e =>
        { response := .error e, archiveAttempts := (tryArchive ext now shadow_matrix).1 }
    | .ok heatmap =>
      match generate_surface_plot ext dsm shadow_matrix with
      | .error e =>
          { response := .error e, archiveAttempts := (tryArchive ext now shadow_matrix).1 }
      | .ok surface_plot =>
          { response := .ok
              { body := [("timestamp", strftime now), ("heatmap", heatmap),
                         ("surface_plot", surface_plot)],
                contentType := "application/json" },
            archiveAttempts := (tryArchive ext now shadow_matrix).1 }

/-- np.nan_to_num(dsm, nan=0) at line 152: not-a-number samples become 0;
infinities become the numpy default large finite replacements, which the
call site leaves at their defaults and are abstract here. -/
def nan_to_num (posRepl negRepl : α) (g : Grid α) : Grid α :=
  gridMap (fun x =>
    match x with
    | .nan => .num 0
    | .inf => .num posRepl
    | .neginf => .num negRepl
    | .num a => .num a) g

/-- The hard-coded observation latitude (line 149). -/
def latitude : ℚ := 2973463 / 100000

/-- The hard-coded observation longitude (line 150). -/
def longitude : ℚ := -9530052 / 100000

/-- A concrete instantiation of the external collaborators, used to run the
pipeline on closed inputs: the solar calculator returns a frame with
elevation 45 and azimuth 180, the shadow algorithm echoes the terrain in
all five outputs (so it preserves shape), pickle and gzip are a lossless
identity coding over grids, the store accepts every insert, and the figure
encoders return fixed PNG byte prefixes. -/
def extDemo : Externals ℚ (Grid ℚ) where
  get_solarposition := fun _ _ _ => .ok [("elevation", [.num 45]), ("azimuth", [.num 180])]
  shadowingfunction_wallheight_13 := fun d _ _ _ _ _ => .ok (d, d, d, d, d)
  pickle_dumps := fun g => .ok g
  pickle_loads := fun b => .ok b
  gzip_compress := fun b => .ok b
  gzip_decompress := fun b => .ok b
  insert_one := fun _ => .ok ()
  heatmap_savefig := fun _ => .ok [137, 80, 78, 71]
  viridis := fun _ => (0, 0, 0, 1)
  surface_savefig := fun _ _ _ _ => .ok [137, 80]

/-- extDemo with the document store down: every insert raises.  Differs from
extDemo only in the archival components. -/
def extStoreDown : Externals ℚ (Grid ℚ) :=
  { extDemo with insert_one := fun _ => .error (.exception "connection refused") }

/-- extDemo with a solar-position calculator that raises. -/
def extSolarRaises : Externals ℚ (Grid ℚ) :=
  { extDemo with
      get_solarposition := fun _ _ _ => .error (.exception "solar position unavailable") }

/-- extDemo with a solar result missing the elevation column. -/
def extNoElevation : Externals ℚ (Grid ℚ) :=
  { extDemo with get_solarposition := fun _ _ _ => .ok [("azimuth", [.num 180])] }

/-- extDemo with a solar result missing the azimuth column. -/
def extNoAzimuth : Externals ℚ (Grid ℚ) :=
  { extDemo with get_solarposition := fun _ _ _ => .ok [("elevation", [.num 45])] }

/-- A demonstration request-arrival instant. -/
def ts0 : DateTime := ⟨2024, 5, 17, 14, 3, 9⟩

/-- A small terrain with distinct elevations. -/
def dsm0 : Grid ℚ := [[.num 1, .num 2], [.num 3, .num 4]]

/-- A degenerate terrain whose samples are all equal. -/
def dsm55 : Grid ℚ := [[.num 5, .num 5], [.num 5, .num 5]]

/-! Helper lemmas about the embedded pipeline. -/

lemma handler_compute_error {npPi : α} {ext : Externals α β} {dsm : Grid α}
    {lat lon : α} {now : DateTime} {e : PyErr}
    (h : calculate_shadow_matrix npPi ext dsm lat lon now = .error e) :
    calculate_shadow npPi ext dsm lat lon now =
      { response := .error e, archiveAttempts := [] } := by
  simp [calculate_shadow, h]

lemma handler_attempts {npPi : α} {ext : Externals α β} {dsm : Grid α}
    {lat lon : α} {now : DateTime} {sm : Grid α}
    (h : calculate_shadow_matrix npPi ext dsm lat lon now = .ok sm) :
    (calculate_shadow npPi ext dsm lat lon now).archiveAttempts =
      (tryArchive ext now sm).1 := by
  simp only [calculate_shadow, h]
  cases generate_heatmap ext sm with
  | error e => rfl
  | ok hm =>
    cases generate_surface_plot ext dsm sm with
    | error e => rfl
    | ok sp => rfl

lemma handler_response_ok {npPi : α} {ext : Externals α β} {dsm : Grid α}
    {lat lon : α} {now : DateTime} {sm : Grid α} {hm sp : String}
    (hsm : calculate_shadow_matrix npPi ext dsm lat lon now = .ok sm)
    (hh : generate_heatmap ext sm = .ok hm)
    (hs : generate_surface_plot ext dsm sm = .ok sp) :
    calculate_shadow npPi ext dsm lat lon now =
      { response := .ok
          { body := [("timestamp", strftime now), ("heatmap", hm), ("surface_plot", sp)],
            contentType := "application/json" },
        archiveAttempts := (tryArchive ext now sm).1 } := by
  simp [calculate_shadow, hsm, hh, hs]

lemma handler_response_inv {npPi : α} {ext : Externals α β} {dsm : Grid α}
    {lat lon : α} {now : DateTime} {resp : HttpResponse}
    (h : (calculate_shadow npPi ext dsm lat lon now).response = .ok resp) :
    ∃ sm hm sp,
      calculate_shadow_matrix npPi ext dsm lat lon now = .ok sm ∧
      generate_heatmap ext sm = .ok hm ∧
      generate_surface_plot ext dsm sm = .ok sp ∧
      resp = { body := [("timestamp", strftime now), ("heatmap", hm), ("surface_plot", sp)],
               contentType := "application/json" } := by
  simp only [calculate_shadow] at h
  cases hsm : calculate_shadow_matrix npPi ext dsm lat lon now with
  | error e => rw [hsm] at h; exact Except.noConfusion h
  | ok sm =>
    rw [hsm] at h; dsimp only at h
    cases hh : generate_heatmap ext sm with
    | error e => rw [hh] at h; exact Except.noConfusion h
    | ok hm =>
      rw [hh] at h; dsimp only at h
      cases hs : generate_surface_plot ext dsm sm with
      | error e => rw [hs] at h; exact Except.noConfusion h
      | ok sp =>
        rw [hs] at h
        exact ⟨sm, hm, sp, rfl, hh, hs, (Except.ok.inj h).symm⟩

lemma calculate_shadow_matrix_inv {npPi : α} {ext : Externals α β} {dsm : Grid α}
    {lat lon : α} {ts : DateTime} {sm : Grid α}
    (h : calculate_shadow_matrix npPi ext dsm lat lon ts = .ok sm) :
    ∃ df altitude azimuth out,
      ext.get_solarposition ts lat lon = .ok df ∧
      dfGet0 df "elevation" = .ok altitude ∧
      dfGet0 df "azimuth" = .ok azimuth ∧
      ext.shadowingfunction_wallheight_13 dsm azimuth altitude 1
        (npZeros (gridRows dsm) (gridCols dsm))
        (gridMulScalarDiv (npZeros (gridRows dsm) (gridCols dsm)) npPi 180) = .ok out ∧
      sm = out.1 := by
  simp only [calculate_shadow_matrix] at h
  cases hdf : ext.get_solarposition ts lat lon with
  | error e => rw [hdf] at h; exact Except.noConfusion h
  | ok df =>
    rw [hdf] at h; dsimp only at h
    cases halt : dfGet0 df "elevation" with
    | error e => rw [halt] at h; exact Except.noConfusion h
    | ok altitude =>
      rw [halt] at h; dsimp only at h
      cases haz : dfGet0 df "azimuth" with
      | error e => rw [haz] at h; exact Except.noConfusion h
      | ok azimuth =>
        rw [haz] at h; dsimp only at h
        cases hout : ext.shadowingfunction_wallheight_13 dsm azimuth altitude 1
            (npZeros (gridRows dsm) (gridCols dsm))
            (gridMulScalarDiv (npZeros (gridRows dsm) (gridCols dsm)) npPi 180) with
        | error e => rw [hout] at h; exact Except.noConfusion h
        | ok out =>
          rw [hout] at h
          exact ⟨df, altitude, azimuth, out, rfl, halt, haz, hout, (Except.ok.inj h).symm⟩

lemma generate_heatmap_inv {ext : Externals α β} {m : Grid α} {hm : String}
    (h : generate_heatmap ext m = .ok hm) :
    ∃ png, ext.heatmap_savefig m = .ok png ∧ hm = b64encode png := by
  simp only [generate_heatmap] at h
  cases hp : ext.heatmap_savefig m with
  | error e => rw [hp] at h; exact Except.noConfusion h
  | ok png =>
    rw [hp] at h
    exact ⟨png, rfl, (Except.ok.inj h).symm⟩

lemma generate_surface_plot_inv {ext : Externals α β} {dsm sm : Grid α} {sp : String}
    (h : generate_surface_plot ext dsm sm = .ok sp) :
    ∃ png, sp = b64encode png := by
  simp only [generate_surface_plot] at h
  cases hn : dsm_normalized dsm with
  | error e => rw [hn] at h; exact Except.noConfusion h
  | ok dn =>
    rw [hn] at h; dsimp only at h
    cases hp : ext.surface_savefig
        (meshgridX (linspace0 (gridCols sm)) (gridRows sm))
        (meshgridY (linspace0 (gridRows sm)) (gridCols sm)) sm
        (dn.map (fun row => row.map (fun v => rgbOfRgba (ext.viridis v)))) with
    | error e => rw [hp] at h; exact Except.noConfusion h
    | ok png =>
      rw [hp] at h
      exact ⟨png, (Except.ok.inj h).symm⟩

lemma calculate_shadow_matrix_congr {npPi : α} {ext1 ext2 : Externals α β}
    {dsm : Grid α} {lat lon : α} {ts : DateTime}
    (h1 : ext1.get_solarposition = ext2.get_solarposition)
    (h2 : ext1.shadowingfunction_wallheight_13 = ext2.shadowingfunction_wallheight_13) :
    calculate_shadow_matrix npPi ext1 dsm lat lon ts =
      calculate_shadow_matrix npPi ext2 dsm lat lon ts := by
  simp only [calculate_shadow_matrix, h1, h2]

lemma generate_heatmap_congr {ext1 ext2 : Externals α β} {m : Grid α}
    (h : ext1.heatmap_savefig = ext2.heatmap_savefig) :
    generate_heatmap ext1 m = generate_heatmap ext2 m := by
  simp only [generate_heatmap, h]

lemma generate_surface_plot_congr {ext1 ext2 : Externals α β} {dsm sm : Grid α}
    (hv : ext1.viridis = ext2.viridis)
    (hs : ext1.surface_savefig = ext2.surface_savefig) :
    generate_surface_plot ext1 dsm sm = generate_surface_plot ext2 dsm sm := by
  simp only [generate_surface_plot, hv, hs]

lemma csm_solar_error {npPi : α} {ext : Externals α β} {dsm : Grid α}
    {lat lon : α} {ts : DateTime} {e : PyErr}
    (h : ext.get_solarposition ts lat lon = .error e) :
    calculate_shadow_matrix npPi ext dsm lat lon ts = .error e := by
  simp [calculate_shadow_matrix, h]

lemma csm_missing_elevation {npPi : α} {ext : Externals α β} {dsm : Grid α}
    {lat lon : α} {ts : DateTime} {df : SolarFrame α}
    (hdf : ext.get_solarposition ts lat lon = .ok df)
    (h : List.lookup "elevation" df = none) :
    calculate_shadow_matrix npPi ext dsm lat lon ts = .error (.keyError "elevation") := by
  simp [calculate_shadow_matrix, hdf, dfGet0, h]

lemma csm_missing_azimuth {npPi : α} {ext : Externals α β} {dsm : Grid α}
    {lat lon : α} {ts : DateTime} {df : SolarFrame α} {altitude : FV α}
    (hdf : ext.get_solarposition ts lat lon = .ok df)
    (halt : dfGet0 df "elevation" = .ok altitude)
    (h : List.lookup "azimuth" df = none) :
    calculate_shadow_matrix npPi ext dsm lat lon ts = .error (.keyError "azimuth") := by
  simp only [calculate_shadow_matrix, hdf, halt]
  simp [dfGet0, h]

lemma foldl_fvMin2_const {c : α} :
    ∀ l : List (FV α), (∀ x ∈ l, x = FV.num c) →
      l.foldl fvMin2 (FV.num c) = FV.num c := by
  intro l
  induction l with
  | nil => intro _; rfl
  | cons x xs ih =>
    intro h
    have hx : x = FV.num c := h x (by simp)
    subst hx
    have hmin : fvMin2 (FV.num c) (FV.num c) = FV.num c := by simp [fvMin2]
    simpa [hmin] using ih (fun y hy => h y (by simp [hy]))

lemma foldl_fvMax2_const {c : α} :
    ∀ l : List (FV α), (∀ x ∈ l, x = FV.num c) →
      l.foldl fvMax2 (FV.num c) = FV.num c := by
  intro l
  induction l with
  | nil => intro _; rfl
  | cons x xs ih =>
    intro h
    have hx : x = FV.num c := h x (by simp)
    subst hx
    have hmax : fvMax2 (FV.num c) (FV.num c) = FV.num c := by simp [fvMax2]
    simpa [hmax] using ih (fun y hy => h y (by simp [hy]))

lemma npMin_const {c : α} {g : Grid α} (hne : elemsOf g ≠ [])
    (hall : ∀ x ∈ elemsOf g, x = FV.num c) : npMin g = .ok (FV.num c) := by
  unfold npMin
  cases he : elemsOf g with
  | nil => exact absurd he hne
  | cons x xs =>
    have hx : x = FV.num c := hall x (by simp [he])
    subst hx
    dsimp only
    rw [foldl_fvMin2_const xs (fun y hy => hall y (by simp [he, hy]))]

lemma npMax_const {c : α} {g : Grid α} (hne : elemsOf g ≠ [])
    (hall : ∀ x ∈ elemsOf g, x = FV.num c) : npMax g = .ok (FV.num c) := by
  unfold npMax
  cases he : elemsOf g with
  | nil => exact absurd he hne
  | cons x xs =>
    have hx : x = FV.num c := hall x (by simp [he])
    subst hx
    dsimp only
    rw [foldl_fvMax2_const xs (fun y hy => hall y (by simp [he, hy]))]

lemma gridMap_congr_of_elems {f g : FV α → FV α} {G : Grid α}
    (h : ∀ x ∈ elemsOf G, f x = g x) : gridMap f G = gridMap g G := by
  unfold gridMap
  refine List.map_congr_left (fun row hrow => ?_)
  refine List.map_congr_left (fun x hx => ?_)
  exact h x (by simp [elemsOf, List.mem_flatten]; exact ⟨row, hrow, hx⟩)

lemma gridGet_map (f : FV α → FV α) (g : Grid α) (i j : ℕ) :
    gridGet (gridMap f g) i j = (gridGet g i j).map f := by
  unfold gridGet gridMap
  rw [List.get?_map]
  cases g.get? i with
  | none => rfl
  | some row => simp [List.get?_map]

/-! The claims. -/

/-- C1: for every request in which sun-geometry resolution, the shadow
computation and both renderings succeed, any failure raised during archival
(serialization, compression, or the store insert) is confined to the
try/except block of lines 109-113: two runs whose external collaborators
agree outside the archival components produce the same successful HTTP
response with the same content, whatever the archival components do. -/
theorem claim_C1_archive_failure_isolated
    (npPi : α) (ext1 ext2 : Externals α β) (dsm : Grid α) (lat lon : α)
    (now : DateTime) (sm : Grid α) (hm sp : String)
    (hsolar : ext1.get_solarposition = ext2.get_solarposition)
    (hshadow : ext1.shadowingfunction_wallheight_13 = ext2.shadowingfunction_wallheight_13)
    (hheat : ext1.heatmap_savefig = ext2.heatmap_savefig)
    (hvir : ext1.viridis = ext2.viridis)
    (hsurf : ext1.surface_savefig = ext2.surface_savefig)
    (hsm : calculate_shadow_matrix npPi ext1 dsm lat lon now = .ok sm)
    (hh : generate_heatmap ext1 sm = .ok hm)
    (hs : generate_surface_plot ext1 dsm sm = .ok sp) :
    (calculate_shadow npPi ext1 dsm lat lon now).response =
      (calculate_shadow npPi ext2 dsm lat lon now).response ∧
    (calculate_shadow npPi ext1 dsm lat lon now).response =
      .ok { body := [("timestamp", strftime now), ("heatmap", hm), ("surface_plot", sp)],
            contentType := "application/json" } := by
  have hsm2 : calculate_shadow_matrix npPi ext2 dsm lat lon now = .ok sm :=
    (calculate_shadow_matrix_congr hsolar hshadow) ▸ hsm
  have hh2 : generate_heatmap ext2 sm = .ok hm := (generate_heatmap_congr hheat) ▸ hh
  have hs2 : generate_surface_plot ext2 dsm sm = .ok sp :=
    (generate_surface_plot_congr hvir hsurf) ▸ hs
  rw [handler_response_ok hsm hh hs, handler_response_ok hsm2 hh2 hs2]
  exact ⟨rfl, rfl⟩

/-- Closed instantiation of C1: the store-down externals differ from the
demonstration externals only in the insert, and the response is the same
success response. -/
theorem claim_C1_witness :
    (calculate_shadow 3 extDemo dsm0 latitude longitude ts0).response =
      (calculate_shadow 3 extStoreDown dsm0 latitude longitude ts0).response ∧
    (calculate_shadow 3 extDemo dsm0 latitude longitude ts0).response =
      .ok { body := [("timestamp", strftime ts0),
                     ("heatmap", b64encode [137, 80, 78, 71]),
                     ("surface_plot", b64encode [137, 80])],
            contentType := "application/json" } :=
  claim_C1_archive_failure_isolated 3 extDemo extStoreDown dsm0 latitude longitude ts0
    dsm0 (b64encode [137, 80, 78, 71]) (b64encode [137, 80])
    rfl rfl rfl rfl rfl rfl rfl rfl

/-- C2: if sun-geometry resolution or the shadow-casting computation raises,
the request fails with that exception and no archival write is attempted;
conversely, an attempted archival write implies the shadow matrix had been
computed successfully first. -/
theorem claim_C2_failure_propagates_without_archive
    (npPi : α) (ext : Externals α β) (dsm : Grid α) (lat lon : α) (now : DateTime) :
    (∀ e, calculate_shadow_matrix npPi ext dsm lat lon now = .error e →
       (calculate_shadow npPi ext dsm lat lon now).response = .error e ∧
       (calculate_shadow npPi ext dsm lat lon now).archiveAttempts = []) ∧
    ((calculate_shadow npPi ext dsm lat lon now).archiveAttempts ≠ [] →
       ∃ sm, calculate_shadow_matrix npPi ext dsm lat lon now = .ok sm) := by
  constructor
  · intro e he
    rw [handler_compute_error he]
    exact ⟨rfl, rfl⟩
  · intro hne
    cases hc : calculate_shadow_matrix npPi ext dsm lat lon now with
    | error e => rw [handler_compute_error hc] at hne; exact absurd rfl hne
    | ok sm => exact ⟨sm, rfl⟩

/-- Closed instantiation of C2: a raising solar calculator fails the request
with no archive attempt, and the all-succeeding run that did attempt an
archive indeed computed its matrix first. -/
theorem claim_C2_witness :
    ((calculate_shadow 3 extSolarRaises dsm0 latitude longitude ts0).response =
        .error (.exception "solar position unavailable") ∧
     (calculate_shadow 3 extSolarRaises dsm0 latitude longitude ts0).archiveAttempts = []) ∧
    ∃ sm, calculate_shadow_matrix 3 extDemo dsm0 latitude longitude ts0 = .ok sm :=
  ⟨(claim_C2_failure_propagates_without_archive 3 extSolarRaises dsm0 latitude longitude
      ts0).1 (.exception "solar position unavailable") rfl,
   (claim_C2_failure_propagates_without_archive 3 extDemo dsm0 latitude longitude ts0).2
      (fun h => List.noConfusion h)⟩

/-- C3: every successful response carries Content-Type application/json and
a JSON body with exactly the keys timestamp, heatmap and surface_plot; the
timestamp field is the captured request-arrival instant formatted
YYYY-MM-DD HH:MM:SS, and the two image fields are base64 encodings of the
PNG buffers the renderers produced. -/
theorem claim_C3_response_shape
    (npPi : α) (ext : Externals α β) (dsm : Grid α) (lat lon : α) (now : DateTime)
    (resp : HttpResponse)
    (h : (calculate_shadow npPi ext dsm lat lon now).response = .ok resp) :
    resp.contentType = "application/json" ∧
    resp.body.map Prod.fst = ["timestamp", "heatmap", "surface_plot"] ∧
    ∃ sm png1 png2,
      calculate_shadow_matrix npPi ext dsm lat lon now = .ok sm ∧
      ext.heatmap_savefig sm = .ok png1 ∧
      resp.body = [("timestamp", strftime now), ("heatmap", b64encode png1),
                   ("surface_plot", b64encode png2)] := by
  obtain ⟨sm, hm, sp, hsm, hh, hs, hresp⟩ := handler_response_inv h
  obtain ⟨png1, hp1, hhm⟩ := generate_heatmap_inv hh
  obtain ⟨png2, hsp⟩ := generate_surface_plot_inv hs
  subst hresp hhm hsp
  exact ⟨rfl, rfl, sm, png1, png2, hsm, hp1, rfl⟩

/-- Closed instantiation of C3 on the demonstration externals. -/
theorem claim_C3_witness :
    ∃ resp, (calculate_shadow 3 extDemo dsm0 latitude longitude ts0).response = .ok resp ∧
      (resp.contentType = "application/json" ∧
       resp.body.map Prod.fst = ["timestamp", "heatmap", "surface_plot"] ∧
       ∃ sm png1 png2,
         calculate_shadow_matrix 3 extDemo dsm0 latitude longitude ts0 = .ok sm ∧
         extDemo.heatmap_savefig sm = .ok png1 ∧
         resp.body = [("timestamp", strftime ts0), ("heatmap", b64encode png1),
                      ("surface_plot", b64encode png2)]) :=
  ⟨_, rfl, claim_C3_response_shape 3 extDemo dsm0 latitude longitude ts0 _ rfl⟩

/-- C4: when sun geometry resolves, the adapter calls the external
shadow-casting algorithm with the terrain grid, the azimuth, the elevation,
scale 1, a zero wall-height array of the terrain dimensions, and the zero
wall-direction array of the terrain dimensions multiplied by pi over 180,
and keeps exactly the first of the five outputs. -/
theorem claim_C4_adapter_call
    (npPi : α) (ext : Externals α β) (dsm : Grid α) (lat lon : α) (ts : DateTime)
    (df : SolarFrame α) (altitude azimuth : FV α)
    (hdf : ext.get_solarposition ts lat lon = .ok df)
    (halt : dfGet0 df "elevation" = .ok altitude)
    (haz : dfGet0 df "azimuth" = .ok azimuth) :
    calculate_shadow_matrix npPi ext dsm lat lon ts =
      Except.map (fun out => out.1)
        (ext.shadowingfunction_wallheight_13 dsm azimuth altitude 1
          (npZeros (gridRows dsm) (gridCols dsm))
          (gridMulScalarDiv (npZeros (gridRows dsm) (gridCols dsm)) npPi 180)) := by
  simp only [calculate_shadow_matrix, hdf, halt, haz]
  cases ext.shadowingfunction_wallheight_13 dsm azimuth altitude 1
      (npZeros (gridRows dsm) (gridCols dsm))
      (gridMulScalarDiv (npZeros (gridRows dsm) (gridCols dsm)) npPi 180) with
  | error e => rfl
  | ok out => rfl

/-- Closed instantiation of C4 on the demonstration externals. -/
theorem claim_C4_witness :
    calculate_shadow_matrix 3 extDemo dsm0 latitude longitude ts0 =
      Except.map (fun out => out.1)
        (extDemo.shadowingfunction_wallheight_13 dsm0 (FV.num 180) (FV.num 45) 1
          (npZeros (gridRows dsm0) (gridCols dsm0))
          (gridMulScalarDiv (npZeros (gridRows dsm0) (gridCols dsm0)) 3 180)) :=
  claim_C4_adapter_call 3 extDemo dsm0 latitude longitude ts0
    [("elevation", [.num 45]), ("azimuth", [.num 180])] (.num 45) (.num 180) rfl rfl rfl

/-- C5: assuming the external shadow-casting algorithm is shape-preserving
(its first output has the shape of its height-field input), every computed
ShadowMatrix has exactly the terrain dimensions. -/
theorem claim_C5_matrix_dimensions
    (npPi : α) (ext : Externals α β) (dsm : Grid α) (lat lon : α) (ts : DateTime)
    (sm : Grid α)
    (hshape : ∀ d az alt sc w dw out,
      ext.shadowingfunction_wallheight_13 d az alt sc w dw = .ok out →
      gridRows out.1 = gridRows d ∧ gridCols out.1 = gridCols d)
    (hsm : calculate_shadow_matrix npPi ext dsm lat lon ts = .ok sm) :
    gridRows sm = gridRows dsm ∧ gridCols sm = gridCols dsm := by
  obtain ⟨df, altitude, azimuth, out, hdf, halt, haz, hout, hsm1⟩ :=
    calculate_shadow_matrix_inv hsm
  subst hsm1
  exact hshape dsm azimuth altitude 1 _ _ out hout

/-- Closed instantiation of C5: the demonstration shadow algorithm echoes
its height field, hence preserves shape, and the computed matrix has the
terrain dimensions. -/
theorem claim_C5_witness :
    (∀ d az alt sc w dw out,
      extDemo.shadowingfunction_wallheight_13 d az alt sc w dw = .ok out →
      gridRows out.1 = gridRows d ∧ gridCols out.1 = gridCols d) ∧
    calculate_shadow_matrix 3 extDemo dsm0 latitude longitude ts0 = .ok dsm0 ∧
    (gridRows dsm0 = gridRows dsm0 ∧ gridCols dsm0 = gridCols dsm0) := by
  have hshape : ∀ d az alt sc w dw out,
      extDemo.shadowingfunction_wallheight_13 d az alt sc w dw = .ok out →
      gridRows out.1 = gridRows d ∧ gridCols out.1 = gridCols d := by
    intro d az alt sc w dw out hout
    cases Except.ok.inj hout
    exact ⟨rfl, rfl⟩
  exact ⟨hshape, rfl,
    claim_C5_matrix_dimensions 3 extDemo dsm0 latitude longitude ts0 dsm0 hshape rfl⟩

/-- C6: under the stdlib contracts that pickle.loads inverts pickle.dumps
and gzip.decompress inverts gzip.compress, decompressing then
deserializing the blob produced by compress_data (gzip over the pickle
serialization) reproduces the matrix exactly; and the archived document
pairs exactly that blob under the key shadow_matrix with the request
timestamp. -/
theorem claim_C6_lossless_archive
    (npPi : α) (ext : Externals α β) (dsm : Grid α) (lat lon : α) (now : DateTime)
    (sm : Grid α) (blob : β)
    (hp : ∀ g b, ext.pickle_dumps g = .ok b → ext.pickle_loads b = .ok g)
    (hg : ∀ b c, ext.gzip_compress b = .ok c → ext.gzip_decompress c = .ok b) :
    (∀ g c, compress_data ext g = .ok c → decompress_data ext c = .ok g) ∧
    (calculate_shadow_matrix npPi ext dsm lat lon now = .ok sm →
      compress_data ext sm = .ok blob →
      (calculate_shadow npPi ext dsm lat lon now).archiveAttempts =
        [{ timestamp := now, shadow_matrix := blob }]) := by
  constructor
  · intro g c hc
    unfold compress_data at hc
    cases hd : ext.pickle_dumps g with
    | error e => rw [hd] at hc; exact Except.noConfusion hc
    | ok b =>
      rw [hd] at hc; dsimp only at hc
      unfold decompress_data
      rw [hg b c hc]
      exact hp g b hd
  · intro hsm hcomp
    rw [handler_attempts hsm]
    simp [tryArchive, hcomp]

/-- Closed instantiation of C6 on the demonstration externals, whose coding
functions are lossless. -/
theorem claim_C6_witness :
    (∀ g c, compress_data extDemo g = .ok c → decompress_data extDemo c = .ok g) ∧
    (calculate_shadow 3 extDemo dsm0 latitude longitude ts0).archiveAttempts =
      [{ timestamp := ts0, shadow_matrix := dsm0 }] := by
  have h := claim_C6_lossless_archive 3 extDemo dsm0 latitude longitude ts0 dsm0 dsm0
    (fun g b hb => by cases Except.ok.inj hb; rfl)
    (fun b c hc => by cases Except.ok.inj hc; rfl)
  exact ⟨h.1, h.2 rfl rfl⟩

/-- C7: the failures the spec groups as GeometryError — the external solar
calculator raising, or its result missing the elevation or azimuth column —
make sun-geometry resolution fail and surface as a request failure carrying
the corresponding exception. -/
theorem claim_C7_geometry_failure
    (npPi : α) (ext : Externals α β) (dsm : Grid α) (lat lon : α) (now : DateTime) :
    (∀ e, ext.get_solarposition now lat lon = .error e →
       (calculate_shadow npPi ext dsm lat lon now).response = .error e) ∧
    (∀ df, ext.get_solarposition now lat lon = .ok df →
       List.lookup "elevation" df = none →
       (calculate_shadow npPi ext dsm lat lon now).response =
         .error (.keyError "elevation")) ∧
    (∀ df altitude, ext.get_solarposition now lat lon = .ok df →
       dfGet0 df "elevation" = .ok altitude →
       List.lookup "azimuth" df = none →
       (calculate_shadow npPi ext dsm lat lon now).response =
         .error (.keyError "azimuth")) := by
  refine ⟨fun e he => ?_, fun df hdf hmiss => ?_, fun df altitude hdf halt hmiss => ?_⟩
  · rw [handler_compute_error (csm_solar_error he)]
  · rw [handler_compute_error (csm_missing_elevation hdf hmiss)]
  · rw [handler_compute_error (csm_missing_azimuth hdf halt hmiss)]

/-- Closed instantiation of C7: each of the three geometry failure modes on
concrete externals. -/
theorem claim_C7_witness :
    (calculate_shadow 3 extSolarRaises dsm0 latitude longitude ts0).response =
      .error (.exception "solar position unavailable") ∧
    (calculate_shadow 3 extNoElevation dsm0 latitude longitude ts0).response =
      .error (.keyError "elevation") ∧
    (calculate_shadow 3 extNoAzimuth dsm0 latitude longitude ts0).response =
      .error (.keyError "azimuth") :=
  ⟨(claim_C7_geometry_failure 3 extSolarRaises dsm0 latitude longitude ts0).1
      (.exception "solar position unavailable") rfl,
   (claim_C7_geometry_failure 3 extNoElevation dsm0 latitude longitude ts0).2.1
      [("azimuth", [.num 180])] rfl rfl,
   (claim_C7_geometry_failure 3 extNoAzimuth dsm0 latitude longitude ts0).2.2
      [("elevation", [.num 45])] (.num 45) rfl rfl rfl⟩

/-- C8 (amended): for a degenerate nonempty terrain whose samples are all
equal, the normalization of line 75 does divide by a zero denominator, but
under numpy IEEE semantics every normalized sample becomes nan instead of
an exception being raised; the surface rendering then proceeds through the
colormap, and the request succeeds whenever the external figure encoder
succeeds — the degenerate terrain does not surface as a request failure. -/
theorem claim_C8_degenerate_normalization
    (c : α) (dsm : Grid α) (hne : elemsOf dsm ≠ [])
    (hall : ∀ x ∈ elemsOf dsm, x = FV.num c) :
    dsm_normalized dsm = .ok (gridMap (fun _ => FV.nan) dsm) ∧
    ∀ (γ : Type) (ext : Externals α γ) (sm : Grid α),
      (∀ X Y Z img, ∃ png, ext.surface_savefig X Y Z img = .ok png) →
      ∃ s, generate_surface_plot ext dsm sm = .ok s := by
  have hnorm : dsm_normalized dsm = .ok (gridMap (fun _ => FV.nan) dsm) := by
    unfold dsm_normalized
    rw [npMin_const hne hall, npMax_const hne hall]
    dsimp only
    congr 1
    apply gridMap_congr_of_elems
    intro x hx
    rw [hall x hx]
    simp [fvSub, fvDiv, sub_self]
  refine ⟨hnorm, fun γ ext sm hsave => ?_⟩
  obtain ⟨png, hpng⟩ := hsave
    (meshgridX (linspace0 (gridCols sm)) (gridRows sm))
    (meshgridY (linspace0 (gridRows sm)) (gridCols sm)) sm
    ((gridMap (fun _ => FV.nan) dsm).map
      (fun row => row.map (fun v => rgbOfRgba (ext.viridis v))))
  refine ⟨b64encode png, ?_⟩
  simp only [generate_surface_plot, hnorm]
  rw [hpng]

/-- Counterexample to C8 as stated: on the all-equal terrain the
normalization denominator is zero and every normalized sample is nan, yet
the request returns the full success response — it does not fail. -/
theorem claim_C8_counterexample :
    dsm_normalized dsm55 = .ok [[FV.nan, FV.nan], [FV.nan, FV.nan]] ∧
    (calculate_shadow 3 extDemo dsm55 latitude longitude ts0).response =
      .ok { body := [("timestamp", strftime ts0),
                     ("heatmap", b64encode [137, 80, 78, 71]),
                     ("surface_plot", b64encode [137, 80])],
            contentType := "application/json" } :=
  ⟨by norm_num [dsm_normalized, npMin, npMax, elemsOf, dsm55, gridMap,
      fvMin2, fvMax2, fvSub, fvDiv], rfl⟩

/-- Closed instantiation of the amended C8 on the degenerate terrain. -/
theorem claim_C8_witness :
    dsm_normalized dsm55 = .ok (gridMap (fun _ => FV.nan) dsm55) ∧
    ∃ s, generate_surface_plot extDemo dsm55 dsm55 = .ok s := by
  have h := claim_C8_degenerate_normalization (5 : ℚ) dsm55
    (by simp [elemsOf, dsm55])
    (by intro x hx; simpa [elemsOf, dsm55] using hx)
  exact ⟨h.1, h.2 (Grid ℚ) extDemo dsm55 (fun X Y Z img => ⟨[137, 80], rfl⟩)⟩

/-- C9: np.nan_to_num replaces every nan sample by zero at load time, so
the terrain used thereafter contains no nan; positionally, a nan in the
raw array becomes the sample 0.  (The loaded grid is an immutable value of
the embedding: every request reads the same grid and nothing writes it.) -/
theorem claim_C9_nan_normalization (posRepl negRepl : α) (raw : Grid α) :
    (∀ row ∈ nan_to_num posRepl negRepl raw, ∀ x ∈ row, x ≠ FV.nan) ∧
    (∀ i j, gridGet raw i j = some FV.nan →
       gridGet (nan_to_num posRepl negRepl raw) i j = some (FV.num 0)) := by
  constructor
  · intro row hrow x hx
    unfold nan_to_num gridMap at hrow
    obtain ⟨r, hr, hrow1⟩ := List.mem_map.1 hrow
    obtain ⟨a, ha, hxa⟩ := List.mem_map.1 (hrow1 ▸ hx)
    cases a <;> simp [← hxa]
  · intro i j hij
    unfold nan_to_num
    rw [gridGet_map, hij]
    rfl

/-- Closed instantiation of C9 on a raw grid holding a nan sample. -/
theorem claim_C9_witness :
    (∀ row ∈ nan_to_num (10 : ℚ) (-10) [[FV.nan, FV.num 7]], ∀ x ∈ row, x ≠ FV.nan) ∧
    gridGet (nan_to_num (10 : ℚ) (-10) [[FV.nan, FV.num 7]]) 0 0 = some (FV.num 0) :=
  ⟨(claim_C9_nan_normalization 10 (-10) [[FV.nan, FV.num 7]]).1,
   (claim_C9_nan_normalization 10 (-10) [[FV.nan, FV.num 7]]).2 0 0 rfl⟩

/-- C10: one timestamp and one matrix per request: the geometry was resolved
at the captured instant now, the response timestamp field is that same
instant formatted, both image fields come from rendering the one computed
matrix, and when the archive attempt happens its document pairs that same
instant with the serialized copy of that same matrix — archival neither
mutates nor regenerates what the renderers consume. -/
theorem claim_C10_single_timestamp_matrix
    (npPi : α) (ext : Externals α β) (dsm : Grid α) (lat lon : α) (now : DateTime)
    (sm : Grid α) (hm sp : String)
    (hsm : calculate_shadow_matrix npPi ext dsm lat lon now = .ok sm)
    (hh : generate_heatmap ext sm = .ok hm)
    (hs : generate_surface_plot ext dsm sm = .ok sp) :
    (calculate_shadow npPi ext dsm lat lon now).response =
      .ok { body := [("timestamp", strftime now), ("heatmap", hm), ("surface_plot", sp)],
            contentType := "application/json" } ∧
    ((∃ e, compress_data ext sm = .error e ∧
        (calculate_shadow npPi ext dsm lat lon now).archiveAttempts = []) ∨
     (∃ blob, compress_data ext sm = .ok blob ∧
        (calculate_shadow npPi ext dsm lat lon now).archiveAttempts =
          [{ timestamp := now, shadow_matrix := blob }])) := by
  constructor
  · rw [handler_response_ok hsm hh hs]
  · rw [handler_attempts hsm]
    cases hc : compress_data ext sm with
    | error e => exact Or.inl ⟨e, rfl, by simp [tryArchive, hc]⟩
    | ok blob => exact Or.inr ⟨blob, rfl, by simp [tryArchive, hc]⟩

/-- Closed instantiation of C10 on the demonstration externals. -/
theorem claim_C10_witness :
    (calculate_shadow 3 extDemo dsm0 latitude longitude ts0).response =
      .ok { body := [("timestamp", strftime ts0),
                     ("heatmap", b64encode [137, 80, 78, 71]),
                     ("surface_plot", b64encode [137, 80])],
            contentType := "application/json" } ∧
    ((∃ e, compress_data extDemo dsm0 = .error e ∧
        (calculate_shadow 3 extDemo dsm0 latitude longitude ts0).archiveAttempts = []) ∨
     (∃ blob, compress_data extDemo dsm0 = .ok blob ∧
        (calculate_shadow 3 extDemo dsm0 latitude longitude ts0).archiveAttempts =
          [{ timestamp := ts0, shadow_matrix := blob }])) :=
  claim_C10_single_timestamp_matrix 3 extDemo dsm0 latitude longitude ts0 dsm0
    (b64encode [137, 80, 78, 71]) (b64encode [137, 80]) rfl rfl rfl

end ShadowAnalysis
